import Mathlib

/-
Verification development for the Duckov mod manager's translation core:
the offline translation service (OfflineTranslationService), the SQLite
translation cache (Database), and the mod-sync orchestrator (ModService).
Timestamps are modelled as integer epoch milliseconds; Date arithmetic in
days is modelled as multiples of dayMs.
-/

deriving instance DecidableEq for Except

namespace DuckovMM

/-- Milliseconds in one day; models Date day arithmetic. -/
def dayMs : Int := 86400000

/-- Whitespace characters removed by the JS String trim operation (core set). -/
def isJsSpace (c : Char) : Bool :=
  c = ' ' || c = '\t' || c = '\n' || c = '\r' || c = '\x0b' || c = '\x0c' || c = ' '

/-- Model of the JS String trim operation: drop leading and trailing whitespace. -/
def jsTrim (s : String) : String :=
  String.mk (((s.toList.dropWhile isJsSpace).reverse.dropWhile isJsSpace).reverse)

/-- Model of the guard in OfflineTranslationService.translate:
the JS test (not text) or text.trim().length === 0. -/
def jsIsBlank (s : String) : Bool :=
  s.isEmpty || (jsTrim s).isEmpty

/-- Row of the translations table (Database.ts, translations schema):
original text, translated text, language pair, created and expiry timestamps. -/
structure CachedTranslation where
  originalText : String
  translatedText : String
  sourceLang : String
  targetLang : String
  createdAt : Int
  expiresAt : Int
deriving Repr, DecidableEq

/-- The UNIQUE key of the translations table: (original_text, source_lang, target_lang). -/
def translationKeyMatches (r : CachedTranslation) (text sl tl : String) : Bool :=
  r.originalText = text && r.sourceLang = sl && r.targetLang = tl

/-- Database.getTranslation: SELECT the row matching the key with
expires_at > CURRENT_TIMESTAMP; absent or expired rows give none. -/
def dbGetTranslation (table : List CachedTranslation) (text sl tl : String)
    (now : Int) : Option CachedTranslation :=
  table.find? (fun r => translationKeyMatches r text sl tl && now < r.expiresAt)

/-- Database.saveTranslation: INSERT OR REPLACE keyed on
(original_text, source_lang, target_lang); the new row's expiry is
now plus the configured TTL in days. -/
def dbSaveTranslation (table : List CachedTranslation) (text translation sl tl : String)
    (now ttlDays : Int) : List CachedTranslation :=
  (table.filter (fun r => !(translationKeyMatches r text sl tl))) ++
    [{ originalText := text, translatedText := translation, sourceLang := sl,
       targetLang := tl, createdAt := now, expiresAt := now + ttlDays * dayMs }]

/-- In-memory statistics of OfflineTranslationService (the stats field). -/
structure TransStats where
  totalTranslations : Nat
  cacheHits : Nat
  cacheMisses : Nat
  modelLoadTime : Int
deriving Repr, DecidableEq

/-- In-memory state of OfflineTranslationService relevant to translate:
whether the translator pipeline handle is loaded, plus the statistics. -/
structure ServiceState where
  translatorLoaded : Bool
  stats : TransStats
deriving Repr, DecidableEq

/-- A freshly constructed service: no model loaded, zeroed statistics. -/
def coldServiceState : ServiceState :=
  { translatorLoaded := false,
    stats := { totalTranslations := 0, cacheHits := 0, cacheMisses := 0, modelLoadTime := 0 } }

/-- One element of an array-shaped model result. -/
structure ModelResultElem where
  translation_text : Option String
deriving Repr, DecidableEq

/-- Shape of the value returned by the translator pipeline call: it may carry
a direct translation_text field and/or an array whose first element carries one. -/
structure ModelResult where
  translation_text : Option String
  elems : List ModelResultElem
deriving Repr, DecidableEq

/-- JS truthiness for an optional string: missing and empty strings are falsy. -/
def jsTruthyString : Option String → Option String
  | some s => if s.isEmpty then none else some s
  | none => none

/-- The extraction in translate:
result.translation_text, else result[0] translation_text, else the input text. -/
def extractTranslatedText (r : ModelResult) (text : String) : String :=
  match jsTruthyString r.translation_text with
  | some s => s
  | none =>
    match r.elems.head? with
    | some e =>
      match jsTruthyString e.translation_text with
      | some s => s
      | none => text
    | none => text

/-- Outcome of the awaited Database.getTranslation call inside translate:
either a row (or none), or a rejected promise carrying a store error. -/
inductive DbLookupOutcome where
  | found (row : Option CachedTranslation)
  | storeError (msg : String)
deriving Repr, DecidableEq

/-- Outcome of the awaited initialize() call inside translate. -/
inductive InitOutcome where
  | succeeds
  | throws
deriving Repr, DecidableEq

/-- Outcome of the awaited translator pipeline invocation inside translate. -/
inductive ModelOutcome where
  | returns (r : ModelResult)
  | throws
deriving Repr, DecidableEq

/-- Observable result of one translate call: the returned value (ok) or a
propagated error, the updated service state, the updated translations table,
and whether initialization was started and the model invoked during the call. -/
structure TranslateOut where
  result : Except String String
  state : ServiceState
  table : List CachedTranslation
  initStarted : Bool
  modelInvoked : Bool
deriving Repr, DecidableEq

/-- The cache-hit test in translate: the JS truthiness test
(cached and cached.translatedText), so an empty cached string is not a hit. -/
def cacheHitValue : Option CachedTranslation → Option String
  | some c => if c.translatedText.isEmpty then none else some c.translatedText
  | none => none

/-- Model-invocation phase of translate (after the cache miss and after
initialize resolved with the translator loaded): invoke the pipeline; on a
thrown error the catch-all returns the original text and writes nothing;
otherwise extract the translated text, save it to the cache, and return it. -/
def runModelPhase (st : ServiceState) (table : List CachedTranslation)
    (now ttlDays : Int) (text : String) (model : ModelOutcome)
    (started : Bool) : TranslateOut :=
  match model with
  | .throws => ⟨.ok text, st, table, started, true⟩
  | .returns r =>
    let t := extractTranslatedText r text
    ⟨.ok t, st, dbSaveTranslation table text t "zh" "en" now ttlDays, started, true⟩

/-- OfflineTranslationService.translate, one call, shallowly embedded.
Mirrors the source: blank input returns immediately; totalTranslations is
incremented before the try block; the cache lookup, initialize() and the
model call are awaited effects whose outcomes are the lookup, init and model
parameters; every throw inside the try block is caught and the original
text returned. -/
def translate (st : ServiceState) (table : List CachedTranslation)
    (now ttlDays : Int) (text : String) (lookup : DbLookupOutcome)
    (init : InitOutcome) (model : ModelOutcome) : TranslateOut :=
  if jsIsBlank text then
    ⟨.ok text, st, table, false, false⟩
  else
    let st1 := { st with stats := { st.stats with
                   totalTranslations := st.stats.totalTranslations + 1 } }
    match lookup with
    | .storeError _ =>
      ⟨.ok text, st1, table, false, false⟩
    | .found row =>
      match cacheHitValue row with
      | some t =>
        ⟨.ok t, { st1 with stats := { st1.stats with
                    cacheHits := st1.stats.cacheHits + 1 } }, table, false, false⟩
      | none =>
        let st2 := { st1 with stats := { st1.stats with
                       cacheMisses := st1.stats.cacheMisses + 1 } }
        if st2.translatorLoaded then
          runModelPhase st2 table now ttlDays text model false
        else
          match init with
          | .throws => ⟨.ok text, st2, table, true, false⟩
          | .succeeds =>
            runModelPhase { st2 with translatorLoaded := true } table now ttlDays text model true

/-- Convenience: translate with the cache lookup computed from the table. -/
def translateWithTable (st : ServiceState) (table : List CachedTranslation)
    (now ttlDays : Int) (text : String) (init : InitOutcome)
    (model : ModelOutcome) : TranslateOut :=
  translate st table now ttlDays text
    (.found (dbGetTranslation table text "zh" "en" now)) init model

/-- State of OfflineTranslationService seen by initialize(): the translator
handle, the isInitializing flag and the shared initializationPromise (as a
promise id). loadCount counts loadModel invocations; nextPromise supplies
fresh promise ids. -/
structure InitState where
  translatorLoaded : Bool
  isInitializing : Bool
  initPromise : Option Nat
  loadCount : Nat
  nextPromise : Nat
deriving Repr, DecidableEq

/-- What one caller of initialize() observes on entry: the model was already
loaded, or the caller now awaits the promise with the given id. -/
inductive InitReturn where
  | alreadyLoaded
  | awaits (p : Nat)
deriving Repr, DecidableEq

/-- The synchronous prefix of initialize() (no suspension points between its
checks and its assignments, so it runs atomically in the event loop): return
if the translator is loaded; if an initialization is in progress, await its
promise; otherwise set the flag, start loadModel and record its promise. -/
def initializeEnter (s : InitState) : InitState × InitReturn :=
  if s.translatorLoaded then
    (s, .alreadyLoaded)
  else
    match s.isInitializing, s.initPromise with
    | true, some p => (s, .awaits p)
    | _, _ =>
      let p := s.nextPromise
      ({ s with isInitializing := true, initPromise := some p,
                loadCount := s.loadCount + 1, nextPromise := p + 1 }, .awaits p)

/-- A cold engine: nothing loaded, no initialization in progress. -/
def initColdState : InitState :=
  { translatorLoaded := false, isInitializing := false, initPromise := none,
    loadCount := 0, nextPromise := 0 }

/-- n concurrent callers entering initialize() one after another while the
model load has not yet resolved (no completion event interleaves). -/
def runInitCalls : Nat → InitState → InitState × List InitReturn
  | 0, s => (s, [])
  | n + 1, s =>
    let step := initializeEnter s
    let rest := runInitCalls n step.1
    (rest.1, step.2 :: rest.2)

/-- Stored mod record (ModInfo as persisted by Database and handled by
ModService); optional fields are nullable columns. -/
structure ModRecord where
  id : String
  title : String
  description : String
  originalTitle : Option String
  originalDescription : Option String
  translatedTitle : Option String
  translatedDescription : Option String
  lastTranslated : Option Int
  timeUpdated : Int
  language : Option String
deriving Repr, DecidableEq

/-- ModService.shouldTranslateMod: translation is needed when no stored
record exists, when it was never translated, when the incoming update time
is newer than the stored translation time, or when the stored translation
time is older than now minus the configured TTL in days. -/
def shouldTranslateMod (mod : ModRecord) (existingMod : Option ModRecord)
    (now ttlDays : Int) : Bool :=
  match existingMod with
  | none => true
  | some e =>
    match e.lastTranslated with
    | none => true
    | some lt =>
      if lt < mod.timeUpdated then true
      else if lt < now - ttlDays * dayMs then true
      else false

/-- Translation step of the per-mod loop in scanAndSyncLocalMods (offline
variant): for a non-English mod, decide via shouldTranslateMod; when needed
the translation engine is invoked (second component true), otherwise the
stored translated fields, translation timestamp and originals are carried
forward onto the scanned record and the engine is not invoked. -/
def processScannedMod (mod : ModRecord) (existingMod : Option ModRecord)
    (now ttlDays : Int) : ModRecord × Bool :=
  match mod.language with
  | some l =>
    if l = "en" then (mod, false)
    else if shouldTranslateMod mod existingMod now ttlDays then (mod, true)
    else
      match existingMod with
      | some e =>
        ({ mod with translatedTitle := e.translatedTitle,
                    translatedDescription := e.translatedDescription,
                    lastTranslated := e.lastTranslated,
                    originalTitle := e.originalTitle,
                    originalDescription := e.originalDescription }, false)
      | none => (mod, false)
  | none => (mod, false)

/-- Modelled from the spec and claim wording, for comparison with
shouldTranslateMod: the item needs re-translation when no stored record
exists, or its lastTranslated is unset, or the incoming timeUpdated is
strictly newer than the stored lastTranslated, or the stored lastTranslated
is older than now minus the cache-TTL-days. -/
def NeedsRetranslation (mod : ModRecord) (existingMod : Option ModRecord)
    (now ttlDays : Int) : Prop :=
  existingMod = none ∨
    ∃ e, existingMod = some e ∧
      (e.lastTranslated = none ∨
        ∃ lt, e.lastTranslated = some lt ∧
          (lt < mod.timeUpdated ∨ lt < now - ttlDays * dayMs))

/-- Metadata of one workshop item as returned by the remote catalog fetch
(fields used by the Steam-variant sync). -/
structure SteamModData where
  title : String
  description : Option String
  time_created : Int
  time_updated : Int
deriving Repr, DecidableEq

/-- Character test used by the sync's language detection:
the CJK ideograph range 4E00-9FA5. -/
def hasChineseChar (s : String) : Bool :=
  s.toList.any (fun c => 0x4e00 ≤ c.toNat && c.toNat ≤ 0x9fa5)

/-- Record-construction step of the per-mod loop in scanAndSyncLocalMods
(Steam variant): detect content change against the stored originals, set the
originals to the fresh catalog values, and clear the translated fields and
translation timestamp when content changed, otherwise carry them forward.
The second component is the contentChanged flag. -/
def syncBuildUpdatedMod (modId : String) (modOpt : Option ModRecord)
    (steamMod : SteamModData) : ModRecord × Bool :=
  let contentChanged :=
    match modOpt with
    | none => false
    | some m =>
      decide (m.originalTitle ≠ some steamMod.title) ||
        decide (m.originalDescription ≠ steamMod.description)
  let desc := steamMod.description.getD "No description available"
  let titleHasChinese := hasChineseChar steamMod.title
  let descriptionHasChinese := hasChineseChar (steamMod.description.getD "")
  ({ id := modId,
     title := steamMod.title,
     description := desc,
     originalTitle := some steamMod.title,
     originalDescription := some desc,
     translatedTitle := if contentChanged then none else modOpt.bind (·.translatedTitle),
     translatedDescription :=
       if contentChanged then none else modOpt.bind (·.translatedDescription),
     lastTranslated := if contentChanged then none else modOpt.bind (·.lastTranslated),
     timeUpdated := steamMod.time_updated * 1000,
     language := if titleHasChinese || descriptionHasChinese then some "zh" else some "en" },
   contentChanged)

/-- The sqlite connection handle held in the db field of Database,
with its driver-level open/closed state. -/
structure DbHandle where
  isOpen : Bool
deriving Repr, DecidableEq

/-- The db field of Database: none before initialize() assigns it. -/
abbrev DbConnState : Type := Option DbHandle

/-- State of the db field after a successful initialize(). -/
def dbAfterInitialize : DbConnState := some { isOpen := true }

/-- Database.close: closes the driver handle but leaves the db field set
(the source never assigns null to this.db). -/
def dbClose (st : DbConnState) : DbConnState :=
  match st with
  | some h => some { h with isOpen := false }
  | none => none

/-- How runQuery / getQuery / getAllQuery dispatch a store operation: reject
with the guard's error when the db field is unset, otherwise hand the query
to the driver handle (recording whether that handle is still open). -/
inductive QueryDispatch where
  | notInitializedError
  | forwardedToDriver (handleOpen : Bool)
deriving Repr, DecidableEq

/-- The guard at the top of Database.runQuery (and getQuery, getAllQuery):
only a missing db field is rejected by the store itself. -/
def runQueryDispatch (st : DbConnState) : QueryDispatch :=
  match st with
  | none => .notInitializedError
  | some h => .forwardedToDriver h.isOpen

section Theorems

/-- A non-blank string is non-empty. -/
lemma not_blank_not_empty {s : String} (h : jsIsBlank s = false) : s.isEmpty = false := by
  unfold jsIsBlank at h
  exact (Bool.or_eq_false_iff.mp h).1

/-- Claim C7: for every input text that is empty or consists only of
whitespace, translate returns the input unchanged, writes no cache entry to
the store, and leaves the service state, including all statistics counters,
unchanged. -/
theorem c7_blank_input_noop (st : ServiceState) (table : List CachedTranslation)
    (now ttlDays : Int) (text : String) (lookup : DbLookupOutcome)
    (init : InitOutcome) (model : ModelOutcome)
    (h : jsIsBlank text = true) :
    translate st table now ttlDays text lookup init model =
      ⟨.ok text, st, table, false, false⟩ := by
  simp [translate, h]

/-- Witness for c7_blank_input_noop at a whitespace-only input. -/
theorem c7_blank_input_noop_witness :
    jsIsBlank "   " = true ∧
      translate coldServiceState [] 0 30 "   " (.found none) .succeeds .throws =
        ⟨.ok "   ", coldServiceState, [], false, false⟩ :=
  ⟨by decide,
    c7_blank_input_noop coldServiceState [] 0 30 "   " (.found none) .succeeds .throws
      (by decide)⟩

/-- Claim C6: for every non-empty, non-whitespace input text, if the model
invocation inside translate throws after successful initialization, translate
returns the original input text unchanged (an ok value, not an error), and no
cache entry is written. -/
theorem c6_model_throw_fallback (st : ServiceState) (table : List CachedTranslation)
    (now ttlDays : Int) (text : String) (row : Option CachedTranslation)
    (h1 : jsIsBlank text = false) (h2 : cacheHitValue row = none) :
    (translate st table now ttlDays text (.found row) .succeeds .throws).result =
        .ok text ∧
      (translate st table now ttlDays text (.found row) .succeeds .throws).table =
        table := by
  cases hst : st.translatorLoaded <;>
    simp [translate, h1, h2, runModelPhase, hst]

/-- Witness for c6_model_throw_fallback on a cache-missing Chinese input. -/
theorem c6_model_throw_fallback_witness :
    jsIsBlank "你好" = false ∧ cacheHitValue none = none ∧
      ((translate coldServiceState [] 0 30 "你好" (.found none) .succeeds .throws).result =
          .ok "你好" ∧
        (translate coldServiceState [] 0 30 "你好" (.found none) .succeeds .throws).table =
          []) :=
  ⟨by decide, by decide,
    c6_model_throw_fallback coldServiceState [] 0 30 "你好" none (by decide) (by decide)⟩

/-- Claim C2 (amended): for every text with an unexpired cached translation
for (zh, en) whose cached translated text is non-empty, translate returns
exactly the cached translated text, increments the hit counter, does not
start initialization, does not invoke the model, leaves the translator state
unchanged (an uninitialized engine stays uninitialized), and writes nothing. -/
theorem c2_cache_hit_pure (st : ServiceState) (table : List CachedTranslation)
    (now ttlDays : Int) (text : String) (init : InitOutcome) (model : ModelOutcome)
    (c : CachedTranslation)
    (h1 : jsIsBlank text = false)
    (h2 : dbGetTranslation table text "zh" "en" now = some c)
    (h3 : c.translatedText.isEmpty = false) :
    (translateWithTable st table now ttlDays text init model).result =
        .ok c.translatedText ∧
      (translateWithTable st table now ttlDays text init model).state.stats.cacheHits =
        st.stats.cacheHits + 1 ∧
      (translateWithTable st table now ttlDays text init model).state.stats.cacheMisses =
        st.stats.cacheMisses ∧
      (translateWithTable st table now ttlDays text init model).state.translatorLoaded =
        st.translatorLoaded ∧
      (translateWithTable st table now ttlDays text init model).initStarted = false ∧
      (translateWithTable st table now ttlDays text init model).modelInvoked = false ∧
      (translateWithTable st table now ttlDays text init model).table = table := by
  simp [translateWithTable, translate, h1, h2, cacheHitValue, h3]

/-- Witness for c2_cache_hit_pure: a cold engine serving a cached entry. -/
theorem c2_cache_hit_pure_witness :
    jsIsBlank "你好" = false ∧
      dbGetTranslation [⟨"你好", "Hello", "zh", "en", 0, 100⟩] "你好" "zh" "en" 50 =
        some ⟨"你好", "Hello", "zh", "en", 0, 100⟩ ∧
      ((translateWithTable coldServiceState [⟨"你好", "Hello", "zh", "en", 0, 100⟩]
            50 30 "你好" .succeeds .throws).result = .ok "Hello" ∧
        (translateWithTable coldServiceState [⟨"你好", "Hello", "zh", "en", 0, 100⟩]
            50 30 "你好" .succeeds .throws).state.stats.cacheHits =
          coldServiceState.stats.cacheHits + 1 ∧
        (translateWithTable coldServiceState [⟨"你好", "Hello", "zh", "en", 0, 100⟩]
            50 30 "你好" .succeeds .throws).state.stats.cacheMisses =
          coldServiceState.stats.cacheMisses ∧
        (translateWithTable coldServiceState [⟨"你好", "Hello", "zh", "en", 0, 100⟩]
            50 30 "你好" .succeeds .throws).state.translatorLoaded =
          coldServiceState.translatorLoaded ∧
        (translateWithTable coldServiceState [⟨"你好", "Hello", "zh", "en", 0, 100⟩]
            50 30 "你好" .succeeds .throws).initStarted = false ∧
        (translateWithTable coldServiceState [⟨"你好", "Hello", "zh", "en", 0, 100⟩]
            50 30 "你好" .succeeds .throws).modelInvoked = false ∧
        (translateWithTable coldServiceState [⟨"你好", "Hello", "zh", "en", 0, 100⟩]
            50 30 "你好" .succeeds .throws).table =
          [⟨"你好", "Hello", "zh", "en", 0, 100⟩]) :=
  ⟨by decide, by decide,
    c2_cache_hit_pure coldServiceState [⟨"你好", "Hello", "zh", "en", 0, 100⟩]
      50 30 "你好" .succeeds .throws ⟨"你好", "Hello", "zh", "en", 0, 100⟩
      (by decide) (by decide) (by decide)⟩

/-- A cached row whose translated text is the empty string. -/
def emptyCachedRow : CachedTranslation := ⟨"你好", "", "zh", "en", 0, 100⟩

/-- Claim C2 (counterexample): with an unexpired cached entry whose
translated text is empty, translate does not return the cached value, does
not count a hit, and does start model initialization, because the source
tests the cached value for JS truthiness, not mere presence. -/
theorem c2_empty_cached_counterexample :
    dbGetTranslation [emptyCachedRow] "你好" "zh" "en" 50 = some emptyCachedRow ∧
      (translateWithTable coldServiceState [emptyCachedRow] 50 30 "你好" .succeeds
          (.returns ⟨none, []⟩)).state.stats.cacheHits = 0 ∧
      (translateWithTable coldServiceState [emptyCachedRow] 50 30 "你好" .succeeds
          (.returns ⟨none, []⟩)).initStarted = true ∧
      (translateWithTable coldServiceState [emptyCachedRow] 50 30 "你好" .succeeds
          (.returns ⟨none, []⟩)).result = .ok "你好" ∧
      (Except.ok "你好" : Except String String) ≠ .ok emptyCachedRow.translatedText := by
  decide

/-- Claim C4 (amended): a store failure during the cache lookup is caught by
the catch-all in translate, which returns the original input text; the error
is not propagated, nothing is written, and neither initialization nor the
model is touched. -/
theorem c4_store_error_swallowed (st : ServiceState) (table : List CachedTranslation)
    (now ttlDays : Int) (text msg : String) (init : InitOutcome) (model : ModelOutcome)
    (h : jsIsBlank text = false) :
    (translate st table now ttlDays text (.storeError msg) init model).result =
        .ok text ∧
      (translate st table now ttlDays text (.storeError msg) init model).table = table ∧
      (translate st table now ttlDays text (.storeError msg) init model).initStarted =
        false ∧
      (translate st table now ttlDays text (.storeError msg) init model).modelInvoked =
        false := by
  simp [translate, h]

/-- Witness for c4_store_error_swallowed at a concrete store error. -/
theorem c4_store_error_swallowed_witness :
    jsIsBlank "你好" = false ∧
      ((translate coldServiceState [] 0 30 "你好"
            (.storeError "SQLITE_CANTOPEN: unable to open database file") .succeeds
            (.returns ⟨none, []⟩)).result = .ok "你好" ∧
        (translate coldServiceState [] 0 30 "你好"
            (.storeError "SQLITE_CANTOPEN: unable to open database file") .succeeds
            (.returns ⟨none, []⟩)).table = [] ∧
        (translate coldServiceState [] 0 30 "你好"
            (.storeError "SQLITE_CANTOPEN: unable to open database file") .succeeds
            (.returns ⟨none, []⟩)).initStarted = false ∧
        (translate coldServiceState [] 0 30 "你好"
            (.storeError "SQLITE_CANTOPEN: unable to open database file") .succeeds
            (.returns ⟨none, []⟩)).modelInvoked = false) :=
  ⟨by decide,
    c4_store_error_swallowed coldServiceState [] 0 30 "你好"
      "SQLITE_CANTOPEN: unable to open database file" .succeeds (.returns ⟨none, []⟩)
      (by decide)⟩

/-- Claim C4 (counterexample): when the cache lookup fails with a store
error, translate returns an ok value carrying the original input instead of
propagating the error. -/
theorem c4_store_error_counterexample :
    (translate coldServiceState [] 0 30 "你好"
          (.storeError "SQLITE_CANTOPEN: unable to open database file") .succeeds
          (.returns ⟨none, []⟩)).result = .ok "你好" ∧
      (translate coldServiceState [] 0 30 "你好"
          (.storeError "SQLITE_CANTOPEN: unable to open database file") .succeeds
          (.returns ⟨none, []⟩)).result ≠
        .error "SQLITE_CANTOPEN: unable to open database file" := by
  decide

/-- The decision function agrees with the claim's four-condition policy. -/
lemma shouldTranslateMod_iff (mod : ModRecord) (existingMod : Option ModRecord)
    (now ttlDays : Int) :
    shouldTranslateMod mod existingMod now ttlDays = true ↔
      NeedsRetranslation mod existingMod now ttlDays := by
  cases existingMod with
  | none => simp [shouldTranslateMod, NeedsRetranslation]
  | some e =>
    cases hlt : e.lastTranslated with
    | none => simp [shouldTranslateMod, NeedsRetranslation, hlt]
    | some lt =>
      by_cases h1 : lt < mod.timeUpdated <;>
        by_cases h2 : lt < now - ttlDays * dayMs <;>
          simp [shouldTranslateMod, NeedsRetranslation, hlt, h1, h2]

/-- Claim C1: for a scanned non-English item, the orchestrator marks it for
re-translation (invokes the translation step) exactly when no stored record
exists, the stored record was never translated, the incoming update time is
strictly newer than the stored translation time, or the stored translation
time is older than now minus the configured cache-TTL-days; when none of
these hold, the stored translated fields and translation timestamp are
carried forward unchanged and the engine is not invoked. -/
theorem c1_retranslation_policy (mod : ModRecord) (existingMod : Option ModRecord)
    (now ttlDays : Int) (l : String)
    (hl : mod.language = some l) (hen : l ≠ "en") :
    ((processScannedMod mod existingMod now ttlDays).2 = true ↔
        NeedsRetranslation mod existingMod now ttlDays) ∧
      (¬ NeedsRetranslation mod existingMod now ttlDays →
        ∀ e, existingMod = some e →
          (processScannedMod mod existingMod now ttlDays).2 = false ∧
            (processScannedMod mod existingMod now ttlDays).1.translatedTitle =
              e.translatedTitle ∧
            (processScannedMod mod existingMod now ttlDays).1.translatedDescription =
              e.translatedDescription ∧
            (processScannedMod mod existingMod now ttlDays).1.lastTranslated =
              e.lastTranslated) := by
  have hflag : (processScannedMod mod existingMod now ttlDays).2 =
      shouldTranslateMod mod existingMod now ttlDays := by
    cases hs : shouldTranslateMod mod existingMod now ttlDays with
    | true => simp [processScannedMod, hl, hen, hs]
    | false =>
      cases existingMod with
      | none => simp [shouldTranslateMod] at hs
      | some e => simp [processScannedMod, hl, hen, hs]
  constructor
  · rw [hflag]; exact shouldTranslateMod_iff mod existingMod now ttlDays
  · intro hnot e he
    have hs : shouldTranslateMod mod existingMod now ttlDays = false := by
      cases hval : shouldTranslateMod mod existingMod now ttlDays with
      | true =>
        exact absurd ((shouldTranslateMod_iff mod existingMod now ttlDays).mp hval) hnot
      | false => rfl
    subst he
    refine ⟨by rw [hflag]; exact hs, ?_, ?_, ?_⟩ <;>
      simp [processScannedMod, hl, hen, hs]

/-- Witness for c1_retranslation_policy: a stored, freshly-translated item. -/
theorem c1_retranslation_policy_witness :
    (⟨"1", "t", "d", some "t", some "d", some "T", some "D", some 90, 80,
        some "zh"⟩ : ModRecord).language = some "zh" ∧ "zh" ≠ "en" ∧
      (((processScannedMod
            ⟨"1", "t", "d", some "t", some "d", some "T", some "D", some 90, 80, some "zh"⟩
            (some ⟨"1", "t", "d", some "t", some "d", some "T", some "D", some 90, 80,
              some "zh"⟩) 100 7).2 = true ↔
          NeedsRetranslation
            ⟨"1", "t", "d", some "t", some "d", some "T", some "D", some 90, 80, some "zh"⟩
            (some ⟨"1", "t", "d", some "t", some "d", some "T", some "D", some 90, 80,
              some "zh"⟩) 100 7) ∧
        (¬ NeedsRetranslation
            ⟨"1", "t", "d", some "t", some "d", some "T", some "D", some 90, 80, some "zh"⟩
            (some ⟨"1", "t", "d", some "t", some "d", some "T", some "D", some 90, 80,
              some "zh"⟩) 100 7 →
          ∀ e, (some ⟨"1", "t", "d", some "t", some "d", some "T", some "D", some 90, 80,
              some "zh"⟩ : Option ModRecord) = some e →
            (processScannedMod
                ⟨"1", "t", "d", some "t", some "d", some "T", some "D", some 90, 80,
                  some "zh"⟩
                (some ⟨"1", "t", "d", some "t", some "d", some "T", some "D", some 90, 80,
                  some "zh"⟩) 100 7).2 = false ∧
              (processScannedMod
                  ⟨"1", "t", "d", some "t", some "d", some "T", some "D", some 90, 80,
                    some "zh"⟩
                  (some ⟨"1", "t", "d", some "t", some "d", some "T", some "D", some 90, 80,
                    some "zh"⟩) 100 7).1.translatedTitle = e.translatedTitle ∧
              (processScannedMod
                  ⟨"1", "t", "d", some "t", some "d", some "T", some "D", some 90, 80,
                    some "zh"⟩
                  (some ⟨"1", "t", "d", some "t", some "d", some "T", some "D", some 90, 80,
                    some "zh"⟩) 100 7).1.translatedDescription = e.translatedDescription ∧
              (processScannedMod
                  ⟨"1", "t", "d", some "t", some "d", some "T", some "D", some 90, 80,
                    some "zh"⟩
                  (some ⟨"1", "t", "d", some "t", some "d", some "T", some "D", some 90, 80,
                    some "zh"⟩) 100 7).1.lastTranslated = e.lastTranslated)) :=
  ⟨rfl, by decide,
    c1_retranslation_policy
      ⟨"1", "t", "d", some "t", some "d", some "T", some "D", some 90, 80, some "zh"⟩
      (some ⟨"1", "t", "d", some "t", some "d", some "T", some "D", some 90, 80, some "zh"⟩)
      100 7 "zh" rfl (by decide)⟩

/-- State of the initialize bookkeeping after the first cold caller entered. -/
def initAfterFirstCall : InitState :=
  { translatorLoaded := false, isInitializing := true, initPromise := some 0,
    loadCount := 1, nextPromise := 1 }

/-- While the load is pending, a further initialize() entry changes nothing
and awaits the original promise. -/
lemma initializeEnter_inProgress :
    initializeEnter initAfterFirstCall = (initAfterFirstCall, .awaits 0) := rfl

/-- Any number of initialize() entries during the pending load leave the
state fixed and all await promise 0. -/
lemma runInitCalls_steady (m : Nat) :
    runInitCalls m initAfterFirstCall =
      (initAfterFirstCall, List.replicate m (InitReturn.awaits 0)) := by
  induction m with
  | zero => rfl
  | succ n ih =>
    simp [runInitCalls, initializeEnter_inProgress, ih, List.replicate_succ]

/-- Claim C3: if N concurrent translate calls all reach initialize() on a
cold engine before the load resolves, exactly one model load is started
(loadCount is 1) and every caller awaits the same load's promise. -/
theorem c3_single_model_load (n : Nat) (h : 1 ≤ n) :
    (runInitCalls n initColdState).1.loadCount = 1 ∧
      (runInitCalls n initColdState).2 = List.replicate n (InitReturn.awaits 0) := by
  obtain ⟨m, rfl⟩ : ∃ m, n = m + 1 := ⟨n - 1, by omega⟩
  have hfirst : initializeEnter initColdState = (initAfterFirstCall, .awaits 0) := rfl
  simp [runInitCalls, hfirst, runInitCalls_steady, List.replicate_succ]
  rfl

/-- Witness for c3_single_model_load with three concurrent callers. -/
theorem c3_single_model_load_witness :
    1 ≤ 3 ∧
      ((runInitCalls 3 initColdState).1.loadCount = 1 ∧
        (runInitCalls 3 initColdState).2 = List.replicate 3 (InitReturn.awaits 0)) :=
  ⟨by decide, c3_single_model_load 3 (by decide)⟩

/-- Claim C5: in the Steam-variant sync, when the freshly fetched original
title or description differs from the stored originals, the record built for
persistence has its translated title, translated description and translation
timestamp cleared, with no dependence on any TTL. -/
theorem c5_content_change_clears (modId : String) (modOpt : Option ModRecord)
    (steamMod : SteamModData) (m : ModRecord)
    (hm : modOpt = some m)
    (hdiff : m.originalTitle ≠ some steamMod.title ∨
      m.originalDescription ≠ steamMod.description) :
    (syncBuildUpdatedMod modId modOpt steamMod).2 = true ∧
      (syncBuildUpdatedMod modId modOpt steamMod).1.translatedTitle = none ∧
      (syncBuildUpdatedMod modId modOpt steamMod).1.translatedDescription = none ∧
      (syncBuildUpdatedMod modId modOpt steamMod).1.lastTranslated = none := by
  subst hm
  rcases hdiff with h | h <;> simp [syncBuildUpdatedMod, h]

/-- Witness for c5_content_change_clears: a stored item whose original title
changed upstream while its translation is still TTL-fresh. -/
theorem c5_content_change_clears_witness :
    (some (⟨"1", "旧", "d", some "旧", some "d", some "T", some "D", some 90, 80,
        some "zh"⟩ : ModRecord) : Option ModRecord) =
        some ⟨"1", "旧", "d", some "旧", some "d", some "T", some "D", some 90, 80,
          some "zh"⟩ ∧
      ((⟨"1", "旧", "d", some "旧", some "d", some "T", some "D", some 90, 80,
          some "zh"⟩ : ModRecord).originalTitle ≠ some "新" ∨
        (⟨"1", "旧", "d", some "旧", some "d", some "T", some "D", some 90, 80,
          some "zh"⟩ : ModRecord).originalDescription ≠ some "d") ∧
      ((syncBuildUpdatedMod "1"
            (some ⟨"1", "旧", "d", some "旧", some "d", some "T", some "D", some 90, 80,
              some "zh"⟩) ⟨"新", some "d", 1, 2⟩).2 = true ∧
        (syncBuildUpdatedMod "1"
            (some ⟨"1", "旧", "d", some "旧", some "d", some "T", some "D", some 90, 80,
              some "zh"⟩) ⟨"新", some "d", 1, 2⟩).1.translatedTitle = none ∧
        (syncBuildUpdatedMod "1"
            (some ⟨"1", "旧", "d", some "旧", some "d", some "T", some "D", some 90, 80,
              some "zh"⟩) ⟨"新", some "d", 1, 2⟩).1.translatedDescription = none ∧
        (syncBuildUpdatedMod "1"
            (some ⟨"1", "旧", "d", some "旧", some "d", some "T", some "D", some 90, 80,
              some "zh"⟩) ⟨"新", some "d", 1, 2⟩).1.lastTranslated = none) :=
  ⟨rfl, by decide,
    c5_content_change_clears "1"
      (some ⟨"1", "旧", "d", some "旧", some "d", some "T", some "D", some 90, 80,
        some "zh"⟩) ⟨"新", some "d", 1, 2⟩
      ⟨"1", "旧", "d", some "旧", some "d", some "T", some "D", some 90, 80, some "zh"⟩
      rfl (by decide)⟩

/-- Filtering for a key after filtering it away yields nothing. -/
lemma filter_pred_filter_not {α : Type} (p : α → Bool) (l : List α) :
    (l.filter (fun r => !(p r))).filter p = [] := by
  induction l with
  | nil => rfl
  | cons a t ih => by_cases h : p a <;> simp [List.filter_cons, h, ih]

/-- Claim C8: saving a translation twice for one (originalText, sourceLang,
targetLang) key with different translated texts leaves exactly one row for
that key; its translated text is the second value and its expiry is reset to
the second save's now plus the TTL in days. -/
theorem c8_upsert_single_row (table : List CachedTranslation)
    (text sl tl v1 v2 : String) (now1 now2 ttlDays : Int) (_hne : v1 ≠ v2) :
    (dbSaveTranslation (dbSaveTranslation table text v1 sl tl now1 ttlDays)
          text v2 sl tl now2 ttlDays).filter
        (fun r => translationKeyMatches r text sl tl) =
      [{ originalText := text, translatedText := v2, sourceLang := sl,
         targetLang := tl, createdAt := now2, expiresAt := now2 + ttlDays * dayMs }] := by
  simp [dbSaveTranslation, List.filter_append, filter_pred_filter_not,
    translationKeyMatches]

/-- Witness for c8_upsert_single_row on two concrete saves. -/
theorem c8_upsert_single_row_witness :
    "Test" ≠ "Testing" ∧
      (dbSaveTranslation (dbSaveTranslation [] "测试" "Test" "zh" "en" 10 30)
            "测试" "Testing" "zh" "en" 20 30).filter
          (fun r => translationKeyMatches r "测试" "zh" "en") =
        [{ originalText := "测试", translatedText := "Testing", sourceLang := "zh",
           targetLang := "en", createdAt := 20, expiresAt := 20 + 30 * dayMs }] :=
  ⟨by decide, c8_upsert_single_row [] "测试" "zh" "en" "Test" "Testing" 10 20 30
    (by decide)⟩

/-- Claim C9 (counterexample): after initialize() then close(), the db field
is still set, so a store operation is not rejected by the store's own
not-initialized guard; it is forwarded to the now-closed driver handle. -/
theorem c9_after_close_counterexample :
    runQueryDispatch (dbClose dbAfterInitialize) = .forwardedToDriver false ∧
      runQueryDispatch (dbClose dbAfterInitialize) ≠
        QueryDispatch.notInitializedError ∧
      dbClose dbAfterInitialize ≠ (none : DbConnState) := by
  decide

/-- Claim C9 (amended): an operation invoked before initialize() (db field
unset) is rejected with the store's clear not-initialized error; close()
leaves the db field set with the handle closed, so operations after close()
are forwarded to the closed driver handle rather than rejected by the
store's own guard. -/
theorem c9_guard_behavior :
    runQueryDispatch none = QueryDispatch.notInitializedError ∧
      dbClose dbAfterInitialize = some { isOpen := false } ∧
      runQueryDispatch (dbClose dbAfterInitialize) =
        QueryDispatch.forwardedToDriver false := by
  decide

/-- When the model result carries translation_text in neither shape, the
extraction falls back to the input text. -/
lemma extract_fallback (r : ModelResult) (text : String)
    (h3 : r.translation_text = none)
    (h4 : r.elems.head?.bind (fun e => e.translation_text) = none) :
    extractTranslatedText r text = text := by
  unfold extractTranslatedText
  rw [h3]
  cases he : r.elems.head? with
  | none => simp [jsTruthyString]
  | some e =>
    rw [he] at h4
    simp only [Option.some_bind] at h4
    simp [jsTruthyString, h4]

/-- Looking up the key just saved finds exactly the saved row while it is
unexpired. -/
lemma dbGet_after_save (table : List CachedTranslation) (text v sl tl : String)
    (now ttlDays now2 : Int) (h : now2 < now + ttlDays * dayMs) :
    dbGetTranslation (dbSaveTranslation table text v sl tl now ttlDays) text sl tl now2 =
      some { originalText := text, translatedText := v, sourceLang := sl,
             targetLang := tl, createdAt := now, expiresAt := now + ttlDays * dayMs } := by
  unfold dbGetTranslation dbSaveTranslation
  rw [List.find?_append]
  have hnone : (table.filter (fun r => !(translationKeyMatches r text sl tl))).find?
      (fun r => translationKeyMatches r text sl tl && now2 < r.expiresAt) = none := by
    rw [List.find?_eq_none]
    intro x hx
    have hk : translationKeyMatches x text sl tl = false := by
      have hmem := (List.mem_filter).mp hx
      simpa using hmem.2
    simp [hk]
  rw [hnone]
  simp [translationKeyMatches, h]

/-- A lookup that yields a non-empty cached value makes translate take the
pure hit path. -/
lemma translate_hit_path (st : ServiceState) (table : List CachedTranslation)
    (now ttlDays : Int) (text : String) (init : InitOutcome) (model : ModelOutcome)
    (c : CachedTranslation)
    (h1 : jsIsBlank text = false)
    (h2 : dbGetTranslation table text "zh" "en" now = some c)
    (h3 : c.translatedText.isEmpty = false) :
    (translateWithTable st table now ttlDays text init model).result =
        .ok c.translatedText ∧
      (translateWithTable st table now ttlDays text init model).modelInvoked = false := by
  simp [translateWithTable, translate, h1, h2, cacheHitValue, h3]

/-- Claim C10: on a cache miss where the model result carries
translation_text in neither supported shape, translate returns the original
text and persists a cache entry mapping the text to itself with full TTL,
unlike a thrown model error after which nothing is written; a later call
before the expiry hits that entry and returns the untranslated original
without invoking the model. -/
theorem c10_shapeless_result_cached (st : ServiceState)
    (table : List CachedTranslation) (now now2 ttlDays : Int) (text : String)
    (r : ModelResult)
    (h1 : jsIsBlank text = false)
    (h2 : cacheHitValue (dbGetTranslation table text "zh" "en" now) = none)
    (h3 : r.translation_text = none)
    (h4 : r.elems.head?.bind (fun e => e.translation_text) = none)
    (h5 : now2 < now + ttlDays * dayMs) :
    (translateWithTable st table now ttlDays text .succeeds (.returns r)).result =
        .ok text ∧
      (translateWithTable st table now ttlDays text .succeeds (.returns r)).table =
        dbSaveTranslation table text text "zh" "en" now ttlDays ∧
      dbGetTranslation
          (translateWithTable st table now ttlDays text .succeeds (.returns r)).table
          text "zh" "en" now2 =
        some { originalText := text, translatedText := text, sourceLang := "zh",
               targetLang := "en", createdAt := now,
               expiresAt := now + ttlDays * dayMs } ∧
      (translateWithTable
          (translateWithTable st table now ttlDays text .succeeds (.returns r)).state
          (translateWithTable st table now ttlDays text .succeeds (.returns r)).table
          now2 ttlDays text .succeeds (.returns r)).result = .ok text ∧
      (translateWithTable
          (translateWithTable st table now ttlDays text .succeeds (.returns r)).state
          (translateWithTable st table now ttlDays text .succeeds (.returns r)).table
          now2 ttlDays text .succeeds (.returns r)).modelInvoked = false ∧
      (translateWithTable st table now ttlDays text .succeeds .throws).table = table := by
  have hext : extractTranslatedText r text = text := extract_fallback r text h3 h4
  have hout : (translateWithTable st table now ttlDays text .succeeds
      (.returns r)).result = .ok text ∧
      (translateWithTable st table now ttlDays text .succeeds (.returns r)).table =
        dbSaveTranslation table text text "zh" "en" now ttlDays := by
    cases hst : st.translatorLoaded <;>
      simp [translateWithTable, translate, h1, h2, runModelPhase, hext, hst]
  have hget : dbGetTranslation
      (translateWithTable st table now ttlDays text .succeeds (.returns r)).table
      text "zh" "en" now2 =
      some { originalText := text, translatedText := text, sourceLang := "zh",
             targetLang := "en", createdAt := now,
             expiresAt := now + ttlDays * dayMs } := by
    rw [hout.2]
    exact dbGet_after_save table text text "zh" "en" now ttlDays now2 h5
  have hhit := translate_hit_path
    (translateWithTable st table now ttlDays text .succeeds (.returns r)).state
    (translateWithTable st table now ttlDays text .succeeds (.returns r)).table
    now2 ttlDays text .succeeds (.returns r)
    { originalText := text, translatedText := text, sourceLang := "zh",
      targetLang := "en", createdAt := now, expiresAt := now + ttlDays * dayMs }
    h1 hget (not_blank_not_empty h1)
  refine ⟨hout.1, hout.2, hget, hhit.1, hhit.2, ?_⟩
  cases hst : st.translatorLoaded <;>
    simp [translateWithTable, translate, h1, h2, runModelPhase, hst]

/-- Witness for c10_shapeless_result_cached on a concrete miss. -/
theorem c10_shapeless_result_cached_witness :
    jsIsBlank "你好" = false ∧
      cacheHitValue (dbGetTranslation [] "你好" "zh" "en" 0) = none ∧
      (⟨none, []⟩ : ModelResult).translation_text = none ∧
      (⟨none, []⟩ : ModelResult).elems.head?.bind (fun e => e.translation_text) = none ∧
      (5 : Int) < 0 + 30 * dayMs ∧
      ((translateWithTable coldServiceState [] 0 30 "你好" .succeeds
            (.returns ⟨none, []⟩)).result = .ok "你好" ∧
        (translateWithTable coldServiceState [] 0 30 "你好" .succeeds
            (.returns ⟨none, []⟩)).table =
          dbSaveTranslation [] "你好" "你好" "zh" "en" 0 30 ∧
        dbGetTranslation
            (translateWithTable coldServiceState [] 0 30 "你好" .succeeds
              (.returns ⟨none, []⟩)).table "你好" "zh" "en" 5 =
          some { originalText := "你好", translatedText := "你好", sourceLang := "zh",
                 targetLang := "en", createdAt := 0, expiresAt := 0 + 30 * dayMs } ∧
        (translateWithTable
            (translateWithTable coldServiceState [] 0 30 "你好" .succeeds
              (.returns ⟨none, []⟩)).state
            (translateWithTable coldServiceState [] 0 30 "你好" .succeeds
              (.returns ⟨none, []⟩)).table
            5 30 "你好" .succeeds (.returns ⟨none, []⟩)).result = .ok "你好" ∧
        (translateWithTable
            (translateWithTable coldServiceState [] 0 30 "你好" .succeeds
              (.returns ⟨none, []⟩)).state
            (translateWithTable coldServiceState [] 0 30 "你好" .succeeds
              (.returns ⟨none, []⟩)).table
            5 30 "你好" .succeeds (.returns ⟨none, []⟩)).modelInvoked = false ∧
        (translateWithTable coldServiceState [] 0 30 "你好" .succeeds .throws).table =
          []) :=
  ⟨by decide, by decide, rfl, rfl, by decide,
    c10_shapeless_result_cached coldServiceState [] 0 5 30 "你好" ⟨none, []⟩
      (by decide) (by decide) rfl rfl (by decide)⟩

end Theorems

end DuckovMM
